import Mathlib

/-!
Verification of the Lepen AI Flask relay backend (optional.py).

The file embeds the request/response translation logic of the backend:
the chat payload translator, the streaming chat event generator, the
image-generation payload builder, the web/map search request builders,
the map-search fenced-JSON response translator, and the liveness
tracker.  Machine-level details (HTTP transport, threads) are modelled
by explicit data: an upstream outcome type for the streaming path, and
action types that record whether an endpoint answered early or built an
upstream payload.
-/

namespace Lepen

/-- JSON values, as produced by the Python json library.  Numbers are
kept as their source numerals (the raw matched string), which is enough
for the lookups and truthiness tests the backend performs; no numeric
arithmetic is done on them anywhere in the code. -/
inductive Json where
  | null : Json
  | bool (b : Bool) : Json
  | num (raw : String) : Json
  | str (s : String) : Json
  | arr (xs : List Json) : Json
  | obj (kvs : List (String × Json)) : Json

/-- JSON whitespace skipping, as in the Python json scanner. -/
def skipWs : List Char → List Char
  | [] => []
  | c :: cs =>
    if c = ' ' ∨ c = '\t' ∨ c = '\n' ∨ c = '\r' then skipWs cs else c :: cs

/-- Body of a JSON string after the opening quote: returns the decoded
content and the remainder after the closing quote.  Escapes are the
simple single-character ones; unicode escapes are outside the modelled
subset, and raw control characters are rejected as in strict mode. -/
def parseJStr : List Char → Option (List Char × List Char)
  | [] => none
  | '"' :: rest => some ([], rest)
  | '\\' :: c :: rest =>
    let esc : Option Char :=
      if c = '"' then some '"'
      else if c = '\\' then some '\\'
      else if c = '/' then some '/'
      else if c = 'b' then some (Char.ofNat 8)
      else if c = 'f' then some (Char.ofNat 12)
      else if c = 'n' then some '\n'
      else if c = 'r' then some '\r'
      else if c = 't' then some '\t'
      else none
    match esc with
    | some e => (parseJStr rest).map (fun p => (e :: p.1, p.2))
    | none => none
  | c :: rest =>
    if c.toNat < 32 then none
    else (parseJStr rest).map (fun p => (c :: p.1, p.2))

/-- One or more decimal digits taken greedily. -/
def takeDigits : List Char → (List Char × List Char)
  | [] => ([], [])
  | c :: cs =>
    if c.isDigit then
      let p := takeDigits cs
      (c :: p.1, p.2)
    else ([], c :: cs)

/-- A JSON numeral per the RFC grammar: optional minus, an integer part
with no leading zero, optional fraction, optional exponent.  The raw
matched text is returned together with the remainder. -/
def parseNumber (cs : List Char) : Option (String × List Char) :=
  let sign : List Char × List Char :=
    match cs with
    | '-' :: rest => (['-'], rest)
    | _ => ([], cs)
  let ip := takeDigits sign.2
  match ip.1 with
  | [] => none
  | d :: ds =>
    if d = '0' ∧ ds ≠ [] then none
    else
      let frac : Option (List Char × List Char) :=
        match ip.2 with
        | '.' :: rest =>
          let f := takeDigits rest
          if f.1 = [] then none else some ('.' :: f.1, f.2)
        | _ => some ([], ip.2)
      match frac with
      | none => none
      | some fr =>
        let expo : Option (List Char × List Char) :=
          match fr.2 with
          | 'e' :: rest =>
            let s2 : List Char × List Char :=
              match rest with
              | '+' :: r2 => (['+'], r2)
              | '-' :: r2 => (['-'], r2)
              | _ => ([], rest)
            let e := takeDigits s2.2
            if e.1 = [] then none else some ('e' :: s2.1 ++ e.1, e.2)
          | 'E' :: rest =>
            let s2 : List Char × List Char :=
              match rest with
              | '+' :: r2 => (['+'], r2)
              | '-' :: r2 => (['-'], r2)
              | _ => ([], rest)
            let e := takeDigits s2.2
            if e.1 = [] then none else some ('E' :: s2.1 ++ e.1, e.2)
          | _ => some ([], fr.2)
        match expo with
        | none => none
        | some ex =>
          some (String.mk (sign.1 ++ (d :: ds) ++ fr.1 ++ ex.1), ex.2)

mutual

/-- Recursive-descent JSON value parser, fuelled to stay total. -/
def parseVal : Nat → List Char → Option (Json × List Char)
  | 0, _ => none
  | Nat.succ f, cs =>
    match skipWs cs with
    | 'n' :: 'u' :: 'l' :: 'l' :: r => some (Json.null, r)
    | 't' :: 'r' :: 'u' :: 'e' :: r => some (Json.bool true, r)
    | 'f' :: 'a' :: 'l' :: 's' :: 'e' :: r => some (Json.bool false, r)
    | '"' :: r => (parseJStr r).map (fun p => (Json.str (String.mk p.1), p.2))
    | '[' :: r => parseArr f r
    | '{' :: r => parseObj f r
    | rest => (parseNumber rest).map (fun p => (Json.num p.1, p.2))

/-- Array items after the opening bracket. -/
def parseArr : Nat → List Char → Option (Json × List Char)
  | 0, _ => none
  | Nat.succ f, cs =>
    match skipWs cs with
    | ']' :: r => some (Json.arr [], r)
    | rest =>
      match parseVal f rest with
      | none => none
      | some (v, r2) => parseArrRest f [v] r2

/-- Continuation of an array after at least one item. -/
def parseArrRest : Nat → List Json → List Char → Option (Json × List Char)
  | 0, _, _ => none
  | Nat.succ f, acc, cs =>
    match skipWs cs with
    | ',' :: r =>
      match parseVal f r with
      | none => none
      | some (v, r2) => parseArrRest f (acc ++ [v]) r2
    | ']' :: r => some (Json.arr acc, r)
    | _ => none

/-- Object members after the opening brace. -/
def parseObj : Nat → List Char → Option (Json × List Char)
  | 0, _ => none
  | Nat.succ f, cs =>
    match skipWs cs with
    | '}' :: r => some (Json.obj [], r)
    | '"' :: r =>
      match parseJStr r with
      | none => none
      | some (k, r2) => parseMember f [] (String.mk k) r2
    | _ => none

/-- Colon and value of one object member, then the member loop. -/
def parseMember : Nat → List (String × Json) → String → List Char →
    Option (Json × List Char)
  | 0, _, _, _ => none
  | Nat.succ f, acc, k, cs =>
    match skipWs cs with
    | ':' :: r =>
      match parseVal f r with
      | none => none
      | some (v, r2) => parseObjRest f (acc ++ [(k, v)]) r2
    | _ => none

/-- Continuation of an object after at least one member. -/
def parseObjRest : Nat → List (String × Json) → List Char →
    Option (Json × List Char)
  | 0, _, _ => none
  | Nat.succ f, acc, cs =>
    match skipWs cs with
    | ',' :: r =>
      match skipWs r with
      | '"' :: r2 =>
        match parseJStr r2 with
        | none => none
        | some (k, r3) => parseMember f acc (String.mk k) r3
      | _ => none
    | '}' :: r => some (Json.obj acc, r)
    | _ => none

end

/-- Model of json.loads restricted to the subset above: the whole input
must be one JSON value surrounded only by whitespace. -/
def json_loads (s : String) : Option Json :=
  let cs := s.toList
  match parseVal (cs.length + 2) cs with
  | some (v, rest) => if skipWs rest = [] then some v else none
  | none => none

/-- Lookup in the member list of a parsed object.  A Python dict built
by json.loads keeps the LAST binding of a duplicated key, so the last
match wins here too. -/
def lookupLast (kvs : List (String × Json)) (k : String) : Option Json :=
  match kvs with
  | [] => none
  | kv :: rest =>
    match lookupLast rest k with
    | some v => some v
    | none => if kv.1 = k then some kv.2 else none

/-- Python truthiness of a decoded JSON value. -/
def pyTruthy : Json → Bool
  | Json.null => false
  | Json.bool b => b
  | Json.num raw => (raw.toList.filter (fun c => c.isDigit)).any (fun c => c ≠ '0')
  | Json.str s => s ≠ ""
  | Json.arr xs => !xs.isEmpty
  | Json.obj kvs => !kvs.isEmpty

/-!
## The data-URI regular expression

Both the chat translator and the image endpoint run
re.match with pattern anchored at the start:
data colon, group 1 = one or more characters other than a semicolon,
the literal text ";base64,", group 2 = one or more characters other
than a newline, then the dollar anchor (which in Python also matches
just before one trailing newline at the very end of the string).
-/

/-- Characters before the first semicolon, and the remainder after it;
none when the list has no semicolon. -/
def splitAtSemi : List Char → Option (List Char × List Char)
  | [] => none
  | c :: cs =>
    if c = ';' then some ([], cs)
    else (splitAtSemi cs).map (fun p => (c :: p.1, p.2))

/-- Semantics of the tail pattern: one or more non-newline characters
followed by the end anchor, which also accepts a single trailing
newline.  Returns the matched group. -/
def matchPayload (p : List Char) : Option (List Char) :=
  if p ≠ [] ∧ p.all (fun c => c ≠ '\n') then some p
  else
    let q := p.dropLast
    if p.getLast? = some '\n' ∧ q ≠ [] ∧ q.all (fun c => c ≠ '\n') then some q
    else none

/-- Continuation of the matcher once the candidate mime group and the
text after the first semicolon are split: the mime group must be
non-empty and the text must continue with the base64 marker. -/
def uriTail (mime : List Char) (after : List Char) :
    Option (List Char × List Char) :=
  if mime = [] then none
  else
    match after with
    | 'b' :: 'a' :: 's' :: 'e' :: '6' :: '4' :: ',' :: pay =>
      (matchPayload pay).map (fun p => (mime, p))
    | _ => none

/-- Matcher behaviour after the scheme marker: split at the first
semicolon, then match the tail. -/
def uriAfterScheme (rest : List Char) : Option (List Char × List Char) :=
  match splitAtSemi rest with
  | none => none
  | some p => uriTail p.1 p.2

/-- List-level data-URI matcher for the regular expression above. -/
def dataUriMatchL (cs : List Char) : Option (List Char × List Char) :=
  match cs with
  | 'd' :: 'a' :: 't' :: 'a' :: ':' :: rest => uriAfterScheme rest
  | _ => none

/-- Mime type and base64 payload recovered from a data-URI string, as
the re.match call in the source recovers its two groups; none when the
pattern does not match. -/
def matchDataUri (s : String) : Option (String × String) :=
  (dataUriMatchL s.toList).map (fun p => (String.mk p.1, String.mk p.2))

/-!
## Chat payload translation
-/

/-- One part of an upstream content object: an inline image block or a
text block. -/
inductive Part where
  | inlineData (mimeType : String) (data : String) : Part
  | text (s : String) : Part
deriving DecidableEq

/-- One entry of the upstream contents array. -/
structure Content where
  role : String
  parts : List Part
deriving DecidableEq

/-- One inbound chat message.  The role and content keys are accessed
unconditionally in the source; imageData is optional. -/
structure Msg where
  role : String
  content : String
  imageData : Option String
deriving DecidableEq

/-- Python or-expression over optional strings: a truthy left operand
wins, None and the empty string fall through to the right operand. -/
def pyOrStr (a b : Option String) : Option String :=
  match a with
  | some s => if s = "" then b else some s
  | none => b

/-- Test that a character list begins with the given pattern list, as
the Python startswith method does. -/
def startsWithChars : List Char → List Char → Bool
  | [], _ => true
  | _ :: _, [] => false
  | p :: ps, c :: cs => p = c && startsWithChars ps cs

/-- Python startswith on strings. -/
def pyStartsWith (s pat : String) : Bool :=
  startsWithChars pat.toList s.toList

/-- Image extraction guard of the source: the value must be truthy and
start with the data scheme marker before the regular expression runs.
Note the truthiness guard is subsumed: the empty string fails the
prefix test. -/
def extractImage (v : Option String) : Option (String × String) :=
  match v with
  | some s => if pyStartsWith s "data:" then matchDataUri s else none
  | none => none

/-- Parts of one chat turn: the effective image value is the turn's own
imageData, or (for the final turn only) the top-level imageData; a
decoded image block precedes the text block. -/
def msgParts (msg : Msg) (topImage : Option String) (isLast : Bool) :
    List Part :=
  let msgImage := pyOrStr msg.imageData (if isLast then topImage else none)
  (match extractImage msgImage with
   | some md => [Part.inlineData md.1 md.2]
   | none => []) ++ [Part.text msg.content]

/-- Upstream contents array built by the chat endpoint from the inbound
message list and the top-level imageData field. -/
def chatContents (messages : List Msg) (imageData : Option String) :
    List Content :=
  messages.mapIdx (fun i msg =>
    { role := if msg.role = "user" then "user" else "model",
      parts := msgParts msg imageData (i + 1 = messages.length) })

/-!
## Streaming chat generator

The generator body is modelled as a function from the outcome of the
upstream call to the list of server-sent events it yields.  Each
constructor of SSEvent stands for one yielded line group:
delta for the choices/delta/content event, errorEvent for the
error event, and done for the terminal sentinel.
-/

/-- One outbound server-sent event of the chat stream. -/
inductive SSEvent where
  | delta (content : Json) : SSEvent
  | errorEvent (msg : String) : SSEvent
  | done : SSEvent

/-- Outcome of the upstream streaming call, as seen by the generator:
either the response was not ok, or some number of lines was iterated,
optionally interrupted by an exception carrying a message. -/
inductive StreamOutcome where
  | notOk : StreamOutcome
  | okLines (ls : List String) (exn : Option String) : StreamOutcome

/-- Single get step with default on a decoded JSON value: a dict lookup
returns the value or the default; anything that is not a dict raises,
modelled as none. -/
def jGetD (j : Json) (k : String) (dflt : Json) : Option Json :=
  match j with
  | Json.obj kvs => some ((lookupLast kvs k).getD dflt)
  | _ => none

/-- Indexing with 0: lists give the first element or raise when empty;
strings give their first character as a one-character string; all other
values raise. -/
def jIndex0 : Json → Option Json
  | Json.arr (x :: _) => some x
  | Json.arr [] => none
  | Json.str s =>
    match s.toList with
    | c :: _ => some (Json.str (String.mk [c]))
    | [] => none
  | _ => none

/-- The guarded lookup chain of the generator loop body, applied to one
decoded chunk: candidates (default one empty dict), index 0, content
(default empty dict), parts (default one empty dict), index 0, then the
text key, kept only when truthy.  Every raising path of the chain and a
falsy result alike fall into the bare except and yield nothing. -/
def extractCandidateText (data : Json) : Option Json := do
  let cands ← jGetD data "candidates" (Json.arr [Json.obj []])
  let c0 ← jIndex0 cands
  let content ← jGetD c0 "content" (Json.obj [])
  let parts ← jGetD content "parts" (Json.arr [Json.obj []])
  let p0 ← jIndex0 parts
  match p0 with
  | Json.obj kvs =>
    match lookupLast kvs "text" with
    | some v => if pyTruthy v then some v else none
    | none => none
  | _ => none

/-- Processing of one upstream line: skipped when empty, when it lacks
the data marker, when its JSON payload fails to parse, or when
the candidate text is absent or falsy; otherwise the extracted text. -/
def chunkText (line : String) : Option Json :=
  if line = "" then none
  else if pyStartsWith line "data: " then
    match json_loads (String.mk (line.toList.drop 6)) with
    | some j => extractCandidateText j
    | none => none
  else none

/-- Delta events emitted while iterating the given upstream lines. -/
def deltasOf (ls : List String) : List SSEvent :=
  ls.filterMap (fun l => (chunkText l).map SSEvent.delta)

/-- The chat generate function: on a not-ok upstream response it yields
one error event and returns; on successful iteration it yields the
delta events then the terminal sentinel; when an exception interrupts
the iteration it yields the delta events emitted so far then one error
event. -/
def generate : StreamOutcome → List SSEvent
  | StreamOutcome.notOk => [SSEvent.errorEvent "AI API error"]
  | StreamOutcome.okLines ls none => deltasOf ls ++ [SSEvent.done]
  | StreamOutcome.okLines ls (some e) => deltasOf ls ++ [SSEvent.errorEvent e]

/-- Number of terminal sentinel events in an event list. -/
def countDone (es : List SSEvent) : Nat :=
  es.countP (fun e => match e with | SSEvent.done => true | _ => false)

/-!
## Endpoint entry actions

Each POST endpoint first checks the configured key; a failing check
answers with a fixed 500 JSON error before any upstream request.  The
action types record either that early JSON response (status and error
message) or the upstream payload the endpoint goes on to build.
-/

/-- Base system prompt of the chat endpoint. -/
def baseSystemPrompt : String :=
  "You are Lepen AI, an intelligent assistant. You can help with:\n- General conversations and questions\n- Web searches (use your knowledge to answer)\n- Location and map information\n- Weather information\n- Code generation and debugging\n- Mathematical calculations (format equations properly using LaTeX)\n\nBe helpful, concise, and friendly. When providing code, use markdown code blocks.\nFor math equations, use LaTeX format: $inline$ or $$block$$\nUse **bold**, *italic*, and __underline__ for emphasis."

/-- Suffix appended to the system prompt in code mode. -/
def codeModeSuffix : String :=
  "\n\nYou are now in Build mode. Focus on helping with code, programming, and app development. Provide well-structured, clean code with comments."

/-- System prompt selected from the mode flag. -/
def chatSystemPrompt (mode : String) : String :=
  baseSystemPrompt ++ (if mode = "code" then codeModeSuffix else "")

/-- Action taken by the chat endpoint before streaming begins. -/
inductive ChatAction where
  | respond (status : Nat) (errorMsg : String) : ChatAction
  | stream (contents : List Content) (systemPrompt : String) : ChatAction

/-- The chat endpoint up to the point the streaming response is
returned: key check, then payload translation. -/
def chat (apiKey : String) (messages : List Msg) (mode : String)
    (imageData : Option String) : ChatAction :=
  if apiKey = "" then ChatAction.respond 500 "GOOGLE_API_KEY not configured"
  else ChatAction.stream (chatContents messages imageData)
    (chatSystemPrompt mode)

/-- Action taken by the image endpoint before the upstream call. -/
inductive ImgAction where
  | respond (status : Nat) (errorMsg : String) : ImgAction
  | callUpstream (parts : List Part) : ImgAction
deriving DecidableEq

/-- The generate-image endpoint up to the upstream call: key check,
prompt check, then the edit or generate payload. -/
def generate_image (apiKey : String) (prompt : Option String)
    (imageData : Option String) : ImgAction :=
  if apiKey = "" then ImgAction.respond 500 "GOOGLE_API_KEY not configured"
  else
    let p := prompt.getD ""
    if p = "" then ImgAction.respond 400 "Prompt is required"
    else
      match extractImage imageData with
      | some md => ImgAction.callUpstream
          [Part.inlineData md.1 md.2, Part.text ("Edit this image: " ++ p)]
      | none => ImgAction.callUpstream
          [Part.text ("Generate an image: " ++ p)]

/-- Action taken by the two search endpoints before the upstream call:
either the early configuration error or a call whose single text part
is recorded. -/
inductive SearchAction where
  | respond (status : Nat) (errorMsg : String) : SearchAction
  | callUpstream (text : String) : SearchAction
deriving DecidableEq

/-- The web-search endpoint up to the upstream call.  The query is read
with an empty-string default and never validated. -/
def web_search (apiKey : String) (query : Option String) : SearchAction :=
  if apiKey = "" then SearchAction.respond 500 "GOOGLE_API_KEY not configured"
  else SearchAction.callUpstream
    ("Search and provide detailed information about: " ++ query.getD "")

/-- The map-search endpoint up to the upstream call.  The query is read
with an empty-string default and never validated. -/
def map_search (apiKey : String) (query : Option String) : SearchAction :=
  if apiKey = "" then SearchAction.respond 500 "GOOGLE_API_KEY not configured"
  else SearchAction.callUpstream
    ("Find location information for: " ++ query.getD "")

/-!
## Map-search response translation

The endpoint takes the first candidate's text, rebinds it to the inner
block when fenced-code markers are found, parses the stripped text as
JSON, and on any failure inside the try block (parse error, or the
message lookup on a non-dict value) answers with the current — possibly
rebound — content string.
-/

/-- Substring scan over a character list, as the Python in operator on
strings. -/
def containsChars (pat : List Char) : List Char → Bool
  | [] => pat.isEmpty
  | c :: cs => startsWithChars pat (c :: cs) || containsChars pat cs

/-- Python substring membership test. -/
def strContains (s pat : String) : Bool :=
  containsChars pat.toList s.toList

/-- Fuelled worker for the Python split method: scan left to right,
breaking at each non-overlapping occurrence of the separator.  One unit
of fuel is spent per consumed character, so fuel larger than the input
length is never exhausted. -/
def pySplitAux (sep : List Char) : Nat → List Char → List Char →
    List (List Char)
  | 0, s, acc => [acc.reverse ++ s]
  | _ + 1, [], acc => [acc.reverse]
  | f + 1, c :: cs, acc =>
    if startsWithChars sep (c :: cs) then
      acc.reverse :: pySplitAux sep f (List.drop sep.length (c :: cs)) []
    else pySplitAux sep f cs (c :: acc)

/-- Python split on a non-empty separator. -/
def py_split (s sep : String) : List String :=
  (pySplitAux sep.toList (s.toList.length + 1) s.toList []).map String.mk

/-- Python whitespace test of the strip method, for the ASCII range. -/
def isPySpace (c : Char) : Bool :=
  c = ' ' || c = '\t' || c = '\n' || c = '\r' ||
    c = Char.ofNat 11 || c = Char.ofNat 12

/-- Python strip with no argument: remove leading and trailing
whitespace. -/
def py_strip (s : String) : String :=
  String.mk
    ((((s.toList.dropWhile isPySpace).reverse.dropWhile isPySpace).reverse))

/-- The fenced-code stripping step: the text between the first json
fence marker and the next plain fence, or between the first and second
plain fences, or the text unchanged when no fence is present.  This is
the value the content variable holds when json.loads is attempted. -/
def stripFences (content : String) : String :=
  if strContains content "```json" then
    (py_split ((py_split content "```json").getD 1 "") "```").getD 0 ""
  else if strContains content "```" then
    (py_split ((py_split content "```").getD 1 "") "```").getD 0 ""
  else content

/-- Outbound body of the map-search endpoint after a candidate text was
found: either structured map data with the message field as content, or
a plain content fallback. -/
inductive MapResult where
  | mapData (data : Json) (content : Json) : MapResult
  | contentOnly (content : String) : MapResult

/-- Response translation of map-search for the first candidate's text:
strip fences, trim, parse; a parsed dict answers with the map data and
its message value (default empty string); a parse failure or a parsed
non-dict (whose message lookup raises) falls back to the stripped
content string. -/
def map_search_translate (content : String) : MapResult :=
  let stripped := stripFences content
  match json_loads (py_strip stripped) with
  | some (Json.obj kvs) =>
    MapResult.mapData (Json.obj kvs)
      ((lookupLast kvs "message").getD (Json.str ""))
  | some _ => MapResult.contentOnly stripped
  | none => MapResult.contentOnly stripped

/-!
## Liveness tracker and health endpoint

Timestamps are modelled as rational numbers of seconds.  The health
endpoint first calls warm_up, overwriting the module-level
last_request_time with the current clock reading, and then reads the
clock again to compute the reported uptime; the two clock reads within
one call are t1 and t2.
-/

/-- Python int conversion: truncation toward zero. -/
def pyInt (q : ℚ) : ℤ :=
  if 0 ≤ q then ⌊q⌋ else ⌈q⌉

/-- The warm_up function: overwrite the stored timestamp with the
current time, discarding the previous value. -/
def warm_up (now : ℚ) (_lastRequestTime : ℚ) : ℚ := now

/-- Body of the health response. -/
structure HealthResponse where
  status : String
  service : String
  uptime_seconds : ℤ
  ready : Bool
deriving DecidableEq

/-- The health endpoint: warm_up runs at clock reading t1, then uptime
is computed at clock reading t2 from the just-written timestamp.  The
result pairs the new stored timestamp with the response body. -/
def health_check (lastRequestTime : ℚ) (t1 t2 : ℚ) :
    ℚ × HealthResponse :=
  let s := warm_up t1 lastRequestTime
  (s, { status := "ok", service := "lepen-ai-backend",
        uptime_seconds := pyInt (t2 - s), ready := true })

/-!
## Helper lemmas
-/

/-- Appending event lists adds their sentinel counts. -/
lemma countDone_append (a b : List SSEvent) :
    countDone (a ++ b) = countDone a + countDone b :=
  List.countP_append _ _ _

/-- The delta events produced from upstream lines contain no terminal
sentinel. -/
lemma countDone_deltasOf (ls : List String) : countDone (deltasOf ls) = 0 := by
  induction ls with
  | nil => rfl
  | cons l ls ih =>
    rw [deltasOf, List.filterMap_cons]
    cases h2 : chunkText l with
    | none => exact ih
    | some j =>
      show countDone (SSEvent.delta j :: deltasOf ls) = 0
      simpa [countDone, List.countP_cons] using ih

/-- The delta events are exactly the mapped successful chunk
extractions. -/
lemma deltasOf_eq_map (ls : List String) :
    deltasOf ls = (ls.filterMap chunkText).map SSEvent.delta :=
  (List.map_filterMap _ _ _).symm

/-- Splitting at the first semicolon of a semicolon-free block followed
by a semicolon returns that block and the remainder. -/
lemma splitAtSemi_spec (m rest : List Char) (hm : ∀ c ∈ m, c ≠ ';') :
    splitAtSemi (m ++ ';' :: rest) = some (m, rest) := by
  induction m with
  | nil => simp [splitAtSemi]
  | cons c cs ih =>
    have hc : c ≠ ';' := hm c (List.mem_cons_self c cs)
    simp [splitAtSemi, hc, ih (fun x hx => hm x (List.mem_cons_of_mem c hx))]

/-- A non-empty newline-free payload is matched whole. -/
lemma matchPayload_spec (p : List Char) (hne : p ≠ [])
    (hnl : ∀ c ∈ p, c ≠ '\n') : matchPayload p = some p := by
  rw [matchPayload,
    if_pos ⟨hne, List.all_eq_true.mpr (fun c hc => decide_eq_true (hnl c hc))⟩]

/-- The tail matcher succeeds on a non-empty mime group and a well
formed base64 tail. -/
lemma uriTail_spec (m p : List Char) (hm : m ≠ []) (hp : p ≠ [])
    (hnl : ∀ c ∈ p, c ≠ '\n') :
    uriTail m ('b' :: 'a' :: 's' :: 'e' :: '6' :: '4' :: ',' :: p)
      = some (m, p) := by
  simp [uriTail, hm, matchPayload_spec p hp hnl]

/-- The list-level matcher recovers the mime group and the payload of a
well formed data-URI character list. -/
lemma dataUriMatchL_spec (m p : List Char) (hm : m ≠ [])
    (hmsemi : ∀ c ∈ m, c ≠ ';') (hp : p ≠ [])
    (hnl : ∀ c ∈ p, c ≠ '\n') :
    dataUriMatchL ('d' :: 'a' :: 't' :: 'a' :: ':' ::
        (m ++ ';' :: ('b' :: 'a' :: 's' :: 'e' :: '6' :: '4' :: ',' :: p)))
      = some (m, p) := by
  have h1 := splitAtSemi_spec m
    ('b' :: 'a' :: 's' :: 'e' :: '6' :: '4' :: ',' :: p) hmsemi
  simp [dataUriMatchL, uriAfterScheme, h1, uriTail_spec m p hm hp hnl]

/-- Length of the built contents array. -/
lemma chatContents_length (messages : List Msg) (top : Option String) :
    (chatContents messages top).length = messages.length := by
  simp [chatContents]

/-- Element access of the built contents array. -/
lemma chatContents_get (messages : List Msg) (top : Option String)
    (i : Nat) (h : i < messages.length)
    (h2 : i < (chatContents messages top).length) :
    (chatContents messages top).get ⟨i, h2⟩
      = { role := if (messages.get ⟨i, h⟩).role = "user" then "user"
                  else "model",
          parts := msgParts (messages.get ⟨i, h⟩) top
            (i + 1 = messages.length) } :=
  List.get_mapIdx messages _ i h h2

/-- Element access with a default value of the built contents array. -/
lemma chatContents_getD (messages : List Msg) (top : Option String)
    (i : Nat) (h : i < messages.length) (dc : Content) (dm : Msg) :
    (chatContents messages top).getD i dc
      = { role := if (messages.getD i dm).role = "user" then "user"
                  else "model",
          parts := msgParts (messages.getD i dm) top
            (i + 1 = messages.length) } := by
  have h2 : i < (chatContents messages top).length := by
    rw [chatContents_length]; exact h
  rw [List.getD, List.getD, List.get?_eq_get h, List.get?_eq_get h2,
    Option.getD_some, Option.getD_some, chatContents_get messages top i h h2]

/-!
## Claims
-/

/-- C1: the claim states that every path of the streaming generator
ends with exactly one terminal sentinel.  On the upstream not-ok path
the generator yields the error event and returns at once, so no
sentinel is ever emitted there: the counterexample exhibits the full
event list of that path and its sentinel count of zero. -/
theorem c1_counterexample :
    generate StreamOutcome.notOk = [SSEvent.errorEvent "AI API error"] ∧
    countDone (generate StreamOutcome.notOk) = 0 :=
  ⟨rfl, rfl⟩

/-- C1 (amended): on upstream success the outbound stream is the delta
events followed by exactly one terminal sentinel; on an upstream not-ok
status, or when an exception interrupts the iteration, the stream ends
with a single error event and no sentinel is emitted. -/
theorem c1_stream_events (ls : List String) (e : String) :
    generate (StreamOutcome.okLines ls none)
      = (ls.filterMap chunkText).map SSEvent.delta ++ [SSEvent.done] ∧
    countDone (generate (StreamOutcome.okLines ls none)) = 1 ∧
    generate (StreamOutcome.okLines ls (some e))
      = (ls.filterMap chunkText).map SSEvent.delta ++ [SSEvent.errorEvent e] ∧
    countDone (generate (StreamOutcome.okLines ls (some e))) = 0 ∧
    generate StreamOutcome.notOk = [SSEvent.errorEvent "AI API error"] ∧
    countDone (generate StreamOutcome.notOk) = 0 := by
  refine ⟨?_, ?_, ?_, ?_, rfl, rfl⟩
  · rw [generate, deltasOf_eq_map]
  · rw [generate, countDone_append, countDone_deltasOf]
    rfl
  · rw [generate, deltasOf_eq_map]
  · rw [generate, countDone_append, countDone_deltasOf]
    rfl

/-- C2: the claim quantifies over every string of the documented
data-URI form with a semicolon-free mime group, but the payload group
of the pattern cannot cross a newline: this input is of the documented
form (the concatenation witnesses it and the mime group is
semicolon-free), yet the extraction recovers nothing, so no image block
is attached for it. -/
theorem c2_counterexample :
    "data:image/png;base64,AB\nCD"
      = "data:" ++ "image/png" ++ ";base64," ++ "AB\nCD" ∧
    (∀ c ∈ "image/png".toList, c ≠ ';') ∧
    matchDataUri "data:image/png;base64,AB\nCD" = none :=
  ⟨rfl, by decide, rfl⟩

/-- C2 (amended): for a non-empty semicolon-free mime group and a
non-empty newline-free payload the extraction recovers both groups
exactly; and whenever the extraction fails on the effective image value
of a chat turn, the turn gets only its text part, with no image block
and no failure (the extraction is a total function). -/
theorem c2_data_uri_extraction (m p : String)
    (hm : m ≠ "") (hmsemi : ∀ c ∈ m.toList, c ≠ ';')
    (hp : p ≠ "") (hnl : ∀ c ∈ p.toList, c ≠ '\n') :
    matchDataUri ("data:" ++ m ++ ";base64," ++ p) = some (m, p) ∧
    (∀ (msg : Msg) (top : Option String) (isLast : Bool),
      extractImage (pyOrStr msg.imageData (if isLast then top else none))
        = none →
      msgParts msg top isLast = [Part.text msg.content]) := by
  constructor
  · have hm2 : m.data ≠ [] :=
      fun h => hm (String.ext (show m.data = "".data from h))
    have hp2 : p.data ≠ [] :=
      fun h => hp (String.ext (show p.data = "".data from h))
    have e1 : "data:".data = ['d', 'a', 't', 'a', ':'] := rfl
    have e2 : ";base64,".data = [';', 'b', 'a', 's', 'e', '6', '4', ','] := rfl
    have key : ("data:" ++ m ++ ";base64," ++ p).data
        = 'd' :: 'a' :: 't' :: 'a' :: ':' ::
          (m.data ++ ';' ::
            ('b' :: 'a' :: 's' :: 'e' :: '6' :: '4' :: ',' :: p.data)) := by
      simp [String.data_append, e1, e2]
    show (dataUriMatchL ("data:" ++ m ++ ";base64," ++ p).data).map
        (fun q => (String.mk q.1, String.mk q.2)) = some (m, p)
    rw [key, dataUriMatchL_spec m.data p.data hm2 hmsemi hp2 hnl]
    rfl
  · intro msg top isLast h
    simp [msgParts, h]

/-- C2 witness: the theorem applied at a concrete mime type and
payload. -/
theorem c2_witness :
    matchDataUri ("data:" ++ "image/png" ++ ";base64," ++ "iVBORw0K")
      = some ("image/png", "iVBORw0K") :=
  (c2_data_uri_extraction "image/png" "iVBORw0K" (by decide) (by decide)
    (by decide) (by decide)).1

/-- C3: the claim states that on a parse failure the endpoint falls
back to the original unstripped candidate text; but the content
variable is rebound to the fence-extracted block before the parse runs,
so the fallback answers that block instead.  Here the candidate text
wraps a non-JSON body in a json fence, and the endpoint answers the
extracted block, which differs from the original text. -/
theorem c3_counterexample :
    map_search_translate "```json\nhello\n```"
      = MapResult.contentOnly "\nhello\n" ∧
    "\nhello\n" ≠ "```json\nhello\n```" :=
  ⟨rfl, by decide⟩

/-- C3 (amended): when the stripped content parses as a JSON object the
endpoint answers the structured map data together with its message
field (defaulting to the empty string); when the parse fails the
endpoint answers, without raising, a plain content field holding the
fence-stripped text — not the original unstripped candidate text. -/
theorem c3_map_search_fallback (content : String) :
    (∀ kvs, json_loads (py_strip (stripFences content)) = some (Json.obj kvs) →
      map_search_translate content
        = MapResult.mapData (Json.obj kvs)
            ((lookupLast kvs "message").getD (Json.str ""))) ∧
    (json_loads (py_strip (stripFences content)) = none →
      map_search_translate content
        = MapResult.contentOnly (stripFences content)) := by
  constructor
  · intro kvs h
    simp [map_search_translate, h]
  · intro h
    simp [map_search_translate, h]

/-- C3 witness: the theorem applied at a fenced candidate text with a
valid embedded JSON object. -/
theorem c3_witness :
    map_search_translate "```json\n\x7b\"message\": \"hi\"\x7d\n```"
      = MapResult.mapData (Json.obj [("message", Json.str "hi")])
          (Json.str "hi") :=
  (c3_map_search_fallback "```json\n\x7b\"message\": \"hi\"\x7d\n```").1
    [("message", Json.str "hi")] rfl

/-- C4: with the key configured and a non-empty prompt, a decodable
data-URI image makes the upstream payload the inline image block
followed by the edit instruction text; an absent or undecodable image
makes it the single generate instruction text. -/
theorem c4_generate_image_payload (apiKey prompt : String)
    (imageData : Option String) (hk : apiKey ≠ "") (hp : prompt ≠ "") :
    (∀ s md, imageData = some s → pyStartsWith s "data:" = true →
      matchDataUri s = some md →
      generate_image apiKey (some prompt) imageData
        = ImgAction.callUpstream
            [Part.inlineData md.1 md.2,
             Part.text ("Edit this image: " ++ prompt)]) ∧
    (extractImage imageData = none →
      generate_image apiKey (some prompt) imageData
        = ImgAction.callUpstream
            [Part.text ("Generate an image: " ++ prompt)]) := by
  constructor
  · rintro s md rfl hsw hmatch
    simp [generate_image, hk, hp, extractImage, hsw, hmatch]
  · intro h
    simp [generate_image, hk, hp, h]

/-- C4 witness: the theorem applied at a concrete key, prompt and
image, on both the edit and the generate branches. -/
theorem c4_witness :
    generate_image "k" (some "a cat") (some "data:image/png;base64,AAAA")
      = ImgAction.callUpstream
          [Part.inlineData "image/png" "AAAA",
           Part.text ("Edit this image: " ++ "a cat")] ∧
    generate_image "k" (some "a cat") none
      = ImgAction.callUpstream
          [Part.text ("Generate an image: " ++ "a cat")] :=
  ⟨(c4_generate_image_payload "k" "a cat" (some "data:image/png;base64,AAAA")
      (by decide) (by decide)).1 "data:image/png;base64,AAAA"
      ("image/png", "AAAA") rfl (by decide) rfl,
   (c4_generate_image_payload "k" "a cat" none
      (by decide) (by decide)).2 rfl⟩

/-- C6: for every non-final turn the built content is independent of
the top-level image field; the final turn with its own truthy image
value ignores the top-level field; and the final turn without its own
image value (absent or empty) takes the top-level field as its
effective image. -/
theorem c6_top_image_final_turn (messages : List Msg)
    (top1 top2 : Option String) (i : Nat) (h : i < messages.length)
    (hnl : i + 1 ≠ messages.length) :
    (chatContents messages top1).getD i ⟨"", []⟩
      = (chatContents messages top2).getD i ⟨"", []⟩ ∧
    (∀ (msg : Msg) (top : Option String) (s : String),
      msg.imageData = some s → s ≠ "" →
      msgParts msg top true = msgParts msg none true) ∧
    (∀ (msg : Msg) (top : Option String),
      msg.imageData = none ∨ msg.imageData = some "" →
      msgParts msg top true
        = (match extractImage top with
           | some md => [Part.inlineData md.1 md.2]
           | none => []) ++ [Part.text msg.content]) := by
  refine ⟨?_, ?_, ?_⟩
  · have hd : decide (i + 1 = messages.length) = false := decide_eq_false hnl
    rw [chatContents_getD messages top1 i h ⟨"", []⟩ ⟨"", "", none⟩,
      chatContents_getD messages top2 i h ⟨"", []⟩ ⟨"", "", none⟩]
    simp [msgParts, hd]
  · intro msg top s hs hne
    simp [msgParts, pyOrStr, hs, hne]
  · rintro msg top (h3 | h3) <;> simp [msgParts, pyOrStr, h3]

/-- C6 witness: the theorem applied at a two-turn message list and its
first (non-final) turn, under two different top-level image values. -/
theorem c6_witness :
    (chatContents [⟨"user", "a", none⟩, ⟨"user", "b", none⟩]
        (some "data:x;base64,QQ")).getD 0 ⟨"", []⟩
      = (chatContents [⟨"user", "a", none⟩, ⟨"user", "b", none⟩]
          none).getD 0 ⟨"", []⟩ :=
  (c6_top_image_final_turn [⟨"user", "a", none⟩, ⟨"user", "b", none⟩]
    (some "data:x;base64,QQ") none 0 (by decide) (by decide)).1

/-- C7: the built contents array has the same length as the inbound
message list, and for every index the turn keeps its position, the user
role maps to the user role, any other role maps to the model role, and
a decoded image block precedes the text block. -/
theorem c7_contents_shape (messages : List Msg) (top : Option String)
    (i : Nat) (h : i < messages.length) :
    (chatContents messages top).length = messages.length ∧
    (chatContents messages top).getD i ⟨"", []⟩
      = { role := if (messages.getD i ⟨"", "", none⟩).role = "user"
                  then "user" else "model",
          parts :=
            (match extractImage
                (pyOrStr (messages.getD i ⟨"", "", none⟩).imageData
                  (if (i + 1 = messages.length : Bool) then top
                   else none)) with
             | some md => [Part.inlineData md.1 md.2]
             | none => []) ++
            [Part.text (messages.getD i ⟨"", "", none⟩).content] } := by
  refine ⟨chatContents_length messages top, ?_⟩
  rw [chatContents_getD messages top i h ⟨"", []⟩ ⟨"", "", none⟩]
  rfl

/-- C7 witness: the theorem applied at a concrete two-turn message list
whose second turn has a non-user role and carries an image. -/
theorem c7_witness :
    (chatContents [⟨"user", "a", none⟩,
        ⟨"assistant", "b", some "data:image/png;base64,AA"⟩] none).length
      = 2 ∧
    (chatContents [⟨"user", "a", none⟩,
        ⟨"assistant", "b", some "data:image/png;base64,AA"⟩] none).getD 1
        ⟨"", []⟩
      = { role := "model",
          parts := [Part.inlineData "image/png" "AA", Part.text "b"] } := by
  have h := c7_contents_shape
    [⟨"user", "a", none⟩, ⟨"assistant", "b", some "data:image/png;base64,AA"⟩]
    none 1 (by decide)
  exact ⟨h.1, h.2.trans (by decide)⟩

/-- C5: with the key configuration empty, each of the four AI-backed
endpoints answers the fixed configuration error with status 500; in the
model the respond action is returned before any upstream payload is
built, so no upstream call happens. -/
theorem c5_missing_key (messages : List Msg) (mode : String)
    (imageData : Option String) (prompt : Option String)
    (query : Option String) :
    chat "" messages mode imageData
      = ChatAction.respond 500 "GOOGLE_API_KEY not configured" ∧
    generate_image "" prompt imageData
      = ImgAction.respond 500 "GOOGLE_API_KEY not configured" ∧
    web_search "" query
      = SearchAction.respond 500 "GOOGLE_API_KEY not configured" ∧
    map_search "" query
      = SearchAction.respond 500 "GOOGLE_API_KEY not configured" := by
  refine ⟨?_, ?_, ?_, ?_⟩ <;> simp [chat, generate_image, web_search, map_search]

/-- C8: with the key configured, a generate-image request whose prompt
is missing or empty answers the 400 validation error before any
upstream payload is built. -/
theorem c8_prompt_required (apiKey : String) (prompt : Option String)
    (imageData : Option String) (hk : apiKey ≠ "")
    (hp : prompt = none ∨ prompt = some "") :
    generate_image apiKey prompt imageData
      = ImgAction.respond 400 "Prompt is required" := by
  rcases hp with h | h <;> subst h <;> simp [generate_image, hk]

/-- C8 witness: the theorem applied at a concrete configured key and a
missing prompt. -/
theorem c8_witness :
    generate_image "k" none none = ImgAction.respond 400 "Prompt is required" :=
  c8_prompt_required "k" none none (by decide) (Or.inl rfl)

/-- C9: the health endpoint first overwrites the stored timestamp with
the first clock reading of the call and then computes the uptime from
that same timestamp at the second reading, so the response is
independent of the previous stored value, the reported uptime is the
elapsed time within the call, and any sub-second call reports zero. -/
theorem c9_health_uptime (prev1 prev2 t1 t2 : ℚ) :
    (health_check prev1 t1 t2).2 = (health_check prev2 t1 t2).2 ∧
    (health_check prev1 t1 t2).1 = t1 ∧
    (health_check prev1 t1 t2).2.uptime_seconds = pyInt (t2 - t1) ∧
    (0 ≤ t2 - t1 → t2 - t1 < 1 →
      (health_check prev1 t1 t2).2.uptime_seconds = 0) := by
  refine ⟨rfl, rfl, rfl, fun h0 h1 => ?_⟩
  show pyInt (t2 - t1) = 0
  rw [pyInt, if_pos h0]
  exact Int.floor_eq_iff.mpr ⟨by simpa using h0, by simpa using h1⟩

/-- C9 witness: the theorem applied at two distinct previous
timestamps and a call whose two clock readings are half a second
apart. -/
theorem c9_witness :
    (health_check 100 200 (200 + 1/2)).2.uptime_seconds = 0 :=
  (c9_health_uptime 100 5 200 (200 + 1/2)).2.2.2 (by norm_num) (by norm_num)

/-- C10: the search endpoints never validate the query: with the key
configured and the query missing or empty, both endpoints still build
the upstream call, with the empty string interpolated at the end of the
instruction text. -/
theorem c10_query_not_validated (apiKey : String) (query : Option String)
    (hk : apiKey ≠ "") (hq : query = none ∨ query = some "") :
    web_search apiKey query
      = SearchAction.callUpstream
          "Search and provide detailed information about: " ∧
    map_search apiKey query
      = SearchAction.callUpstream "Find location information for: " := by
  rcases hq with h | h <;> subst h <;>
    constructor <;> simp [web_search, map_search, hk]

/-- C10 witness: the theorem applied at a concrete configured key and a
missing query. -/
theorem c10_witness :
    web_search "k" none
      = SearchAction.callUpstream
          "Search and provide detailed information about: " ∧
    map_search "k" none
      = SearchAction.callUpstream "Find location information for: " :=
  c10_query_not_validated "k" none (by decide) (Or.inl rfl)

end Lepen
